import Mathlib

/-!
Verification of `epic_status.py` (Kovt777/jira-conf): a pipeline that fetches
an epic and its child issues from Jira, asks the DeepSeek API for a textual
analysis, renders an HTML report, and publishes it to Confluence.

The Python functions are shallowly embedded as Lean definitions.  Network
interaction is modelled by a `World` value holding the responses the remote
services would return; each embedded function consumes the relevant response.
The module-level global `CONFIG` read by every stage is modelled as an
`Option Config`: `none` means the name is unbound (a Python `NameError` on
first read), which is the actual state of the script since no assignment to
`CONFIG` exists anywhere in the file.
-/

namespace EpicStatus

/-- Models Python `html.escape` (with its default `quote=True`) on a single
character: `&`, `<`, `>`, `"` and the apostrophe (code point 39) become HTML
entities, every other character is kept. -/
def escapeChar (c : Char) : List Char :=
  if c = '&' then "&amp;".data
  else if c = '<' then "&lt;".data
  else if c = '>' then "&gt;".data
  else if c = '"' then "&quot;".data
  else if c = Char.ofNat 39 then "&#x27;".data
  else [c]

/-- Models Python `html.escape`, applied character by character (equivalent to
the sequential `str.replace` calls of the library because `&` is rewritten
before any entity containing `&` is introduced). -/
def escape (s : String) : String :=
  ⟨(s.data.map escapeChar).flatten⟩

/-- Models Python `str.lower` restricted to the ASCII and Cyrillic letters,
the only alphabets occurring in this program.  Uppercase ASCII `A`-`Z` and
Cyrillic `А`-`Я` are shifted to their lowercase forms, `Ё` maps to `ё`,
everything else is unchanged. -/
def pyLowerChar (c : Char) : Char :=
  if 'A' ≤ c ∧ c ≤ 'Z' then Char.ofNat (c.toNat + 32)
  else if 'А' ≤ c ∧ c ≤ 'Я' then Char.ofNat (c.toNat + 32)
  else if c = 'Ё' then 'ё' else c

/-- Models Python `str.lower` (restricted as in `pyLowerChar`). -/
def pyLower (s : String) : String :=
  ⟨s.data.map pyLowerChar⟩

/-- Contiguous-subsequence test on character lists: models the Python
`needle in hay` substring test. -/
def hasSeg (hay needle : List Char) : Bool :=
  if needle.isPrefixOf hay then true
  else
    match hay with
    | [] => false
    | _ :: t => hasSeg t needle

/-- Models Python `tok in s.lower()`. -/
def hasTok (s tok : String) : Bool :=
  hasSeg (pyLower s).data tok.data

/-- Models Python `s.replace('\n', '<br>')` on the character list. -/
def nlToBrData : List Char → List Char
  | [] => []
  | c :: t => if c = '\n' then "<br>".data ++ nlToBrData t else c :: nlToBrData t

/-- Models Python `s.replace('\n', '<br>')`. -/
def nlToBr (s : String) : String :=
  ⟨nlToBrData s.data⟩

/-- `containsSub s sub` holds when `sub` occurs contiguously inside `s`. -/
def containsSub (s sub : String) : Prop :=
  ∃ p q, s = p ++ sub ++ q

/-- The `jira` section of `config.json`. -/
structure JiraConfig where
  url : String
  api_user : String
  api_token : String
deriving DecidableEq

/-- The `confluence` section of `config.json`. -/
structure ConfluenceConfig where
  url : String
  api_user : String
  api_token : String
  space_key : String
deriving DecidableEq

/-- The `deepseek` section of `config.json`. -/
structure DeepseekConfig where
  api_url : String
  api_key : String
  model : String
deriving DecidableEq

/-- The validated configuration object (`load_config`'s return shape). -/
structure Config where
  jira : JiraConfig
  confluence : ConfluenceConfig
  deepseek : DeepseekConfig
  epic_key : String
deriving DecidableEq

/-- The `fields` sub-dictionary of a Jira issue as this program reads it.
Nested dictionaries that the code only queries for one key (`status.name`,
`issuetype.name`, `priority.name`, `assignee.displayName`) are flattened to
that key; `none` models the absence of the field (the code's `dict.get`
defaults then apply). -/
structure IssueFields where
  summary : Option String
  status : Option String
  issuetype : Option String
  priority : Option String
  assignee : Option String
  updated : Option String
  description : Option String
deriving DecidableEq

/-- A Jira issue as consumed by the script. -/
structure Issue where
  key : Option String
  fields : IssueFields
deriving DecidableEq

/-- The epic dictionary produced by `get_epic_info` and consumed by
`generate_content`, `find_confluence_page` and `update_confluence_page`. -/
structure Epic where
  key : String
  summary : String
  description : Option String
deriving DecidableEq

/-- Status classification of `generate_content` (source lines 311-317):
case-insensitive substring match, first match wins, `status-open` is the
catch-all default. -/
def status_class (status : String) : String :=
  if hasTok status "готов" then "status-done"
  else if hasTok status "прогрес" then "status-inprogress"
  else "status-open"

/-- Priority classification of `generate_content` (source lines 319-325):
case-insensitive substring match, first match wins, `priority-low` is the
catch-all default. -/
def priority_class (priority : String) : String :=
  if hasTok priority "высок" then "priority-high"
  else if hasTok priority "средн" then "priority-medium"
  else "priority-low"

/-- The `styles` literal of `generate_content` (source lines 233-281); literal
braces of the CSS are written with hexadecimal escapes. -/
def stylesBlock : String := "\n    <style>\n        .task-table \x7b\n            width: 100%;\n            border-collapse: collapse;\n            margin-bottom: 20px;\n        \x7d\n        .task-table th, .task-table td \x7b\n            border: 1px solid #ddd;\n            padding: 8px;\n            vertical-align: top;\n        \x7d\n        .task-table th \x7b\n            background-color: #f2f2f2;\n            text-align: left;\n        \x7d\n        .task-description \x7b\n            margin-top: 5px;\n            color: #555;\n            font-size: 0.9em;\n        \x7d\n        .task-type \x7b\n            display: inline-block;\n            padding: 2px 5px;\n            border-radius: 3px;\n            font-size: 0.8em;\n            margin-right: 5px;\n        \x7d\n        .task-priority \x7b\n            display: inline-block;\n            padding: 2px 5px;\n            border-radius: 3px;\n            font-size: 0.8em;\n        \x7d\n        .analysis-block \x7b\n            background-color: #f8f9fa;\n            padding: 15px;\n            border-radius: 5px;\n            margin: 20px 0;\n            border-left: 4px solid #4285f4;\n        \x7d\n        .status-done \x7b color: #4CAF50; font-weight: bold; \x7d\n        .status-inprogress \x7b color: #2196F3; font-weight: bold; \x7d\n        .status-open \x7b color: #9E9E9E; font-weight: bold; \x7d\n        .priority-high \x7b background-color: #FFCDD2; color: #C62828; \x7d\n        .priority-medium \x7b background-color: #FFF9C4; color: #F9A825; \x7d\n        .priority-low \x7b background-color: #C8E6C9; color: #388E3C; \x7d\n    </style>\n    "

/-- The `header` f-string of `generate_content` (source lines 283-286).
`md` stands for the external `markdown` library function. -/
def headerBlock (md : String → String) (epic_info : Epic) : String :=
  "\n    <h1>Статус эпика: " ++ escape epic_info.key ++ " - " ++ escape epic_info.summary
    ++ "</h1>\n    <div class=\"task-description\">"
    ++ md (escape (epic_info.description.getD "Описание отсутствует"))
    ++ "</div>\n    "

/-- The initial `tasks_table` literal of `generate_content` (lines 288-298). -/
def tableHead : String := "\n    <h2>Задачи</h2>\n    <table class=\"task-table\">\n        <tr>\n            <th style=\"width: 10%\">Ключ</th>\n            <th style=\"width: 45%\">Детали</th>\n            <th style=\"width: 15%\">Статус</th>\n            <th style=\"width: 15%\">Исполнитель</th>\n            <th style=\"width: 15%\">Обновлено</th>\n        </tr>\n    "

/-- The body of the issue loop of `generate_content` (source lines 300-342):
the HTML table row appended for one issue.  `cfg` is the global `CONFIG`
that the loop reads for the Jira browse link. -/
def renderRow (md : String → String) (cfg : Config) (issue : Issue) : String :=
  let flds := issue.fields
  let key := issue.key.getD "N/A"
  let summary := escape (flds.summary.getD "N/A")
  let status := escape (flds.status.getD "N/A")
  let issue_type := escape (flds.issuetype.getD "N/A")
  let priority := escape (flds.priority.getD "N/A")
  let assignee := match flds.assignee with
    | some name => escape name
    | none => "Не назначен"
  let updated := escape ((flds.updated.getD "").take 10)
  let description := escape (flds.description.getD "")
  "\n        <tr>\n            <td><a href=\"" ++ cfg.jira.url ++ "/browse/" ++ key
    ++ "\" target=\"_blank\">" ++ key
    ++ "</a></td>\n            <td>\n                <div>\n                    <span class=\"task-type\">"
    ++ issue_type
    ++ "</span>\n                    <span class=\"" ++ priority_class priority
    ++ "\">" ++ priority
    ++ "</span>\n                </div>\n                <strong>" ++ summary
    ++ "</strong>\n                <div class=\"task-description\">"
    ++ (if description = "" then "Нет описания" else md description)
    ++ "</div>\n            </td>\n            <td class=\"" ++ status_class status
    ++ "\">" ++ status
    ++ "</td>\n            <td>" ++ assignee
    ++ "</td>\n            <td>" ++ updated
    ++ "</td>\n        </tr>\n        "

/-- The `tasks_table` accumulation of `generate_content`: the initial literal,
one appended row per issue in input order, and the closing tag (lines 300-344). -/
def tasksTable (md : String → String) (cfg : Config) (issues : List Issue) : String :=
  (issues.foldl (fun acc issue => acc ++ renderRow md cfg issue) tableHead) ++ "</table>"

/-- Fixed prefix of the `analysis_block` f-string (source lines 346-351). -/
def anaPre : String := "\n    <div class=\"analysis-block\">\n        <h2>Анализ выполнения</h2>\n        "

/-- Fixed suffix of the `analysis_block` f-string (source lines 346-351). -/
def anaPost : String := "\n    </div>\n    "

/-- The `analysis_block` f-string: the analysis text is embedded with only
`\n` replaced by `<br>`, and is not passed through `escape`. -/
def analysisBlockOf (analysis : String) : String :=
  anaPre ++ nlToBr analysis ++ anaPost

/-- Fixed prefix of the `footer` f-string (source lines 353-358). -/
def footPre : String := "\n    <div style=\"margin-top: 30px; color: #777; font-size: 0.9em;\">\n        <p>Последнее обновление: "

/-- Fixed suffix of the `footer` f-string (source lines 353-358). -/
def footPost : String := "</p>\n        <p>Страница автоматически сгенерирована</p>\n    </div>\n    "

/-- The `footer` f-string with the embedded generation timestamp. -/
def footerBlock (last_update : String) : String :=
  footPre ++ last_update ++ footPost

/-- `generate_content` (source lines 229-360).  `md` abstracts the external
`markdown` library function, `cfg` is the global `CONFIG` read for the Jira
browse links, and `last_update` is the `time.strftime` result, the function's
single impure input, passed explicitly. -/
def generate_content (md : String → String) (cfg : Config) (issues : List Issue)
    (analysis : String) (epic_info : Epic) (last_update : String) : String :=
  stylesBlock ++ headerBlock md epic_info ++ tasksTable md cfg issues
    ++ analysisBlockOf analysis ++ footerBlock last_update

/-- The JQL filter of `get_jira_issues` (source line 100). -/
def jqlOf (epic_key : String) : String :=
  "\"Epic Link\" = " ++ epic_key ++ " OR \"Parent Link\" = " ++ epic_key

/-- The field list of `get_jira_issues` (source line 101). -/
def searchFieldSet : String :=
  "summary,status,assignee,updated,description,comment,issuetype,priority"

/-- One page request of the `get_jira_issues` loop (source lines 107-113). -/
structure SearchRequest where
  jql : String
  fieldSet : String
  startAt : Nat
  maxResults : Nat
  timeout : Nat
deriving DecidableEq

/-- The sequence of page requests the `get_jira_issues` loop issues against a
tracker reporting `total` issues: a request is sent for the current offset,
then the loop stops if `startAt + 100 ≥ total`, else the offset advances by
the fixed page size 100 (source lines 102-121). -/
def pageRequests (epic_key : String) (total : Nat) (startAt : Nat) : List SearchRequest :=
  ⟨jqlOf epic_key, searchFieldSet, startAt, 100, 30⟩ ::
    (if startAt + 100 ≥ total then [] else pageRequests epic_key total (startAt + 100))
termination_by total - startAt
decreasing_by omega

/-- The page-accumulation loop of `get_jira_issues` (source lines 102-123)
run against an honest tracker holding the issue list `all`: the page request
at offset `startAt` returns `(all.drop startAt).take 100` together with
`total = all.length`, and the loop stops once `startAt + 100 ≥ total`. -/
def fetchLoop (all : List Issue) (startAt : Nat) : List Issue :=
  let page := (all.drop startAt).take 100
  if startAt + 100 ≥ all.length then page
  else page ++ fetchLoop all (startAt + 100)
termination_by all.length - startAt
decreasing_by omega

/-- The sort key of `get_jira_issues` (source line 127):
`x.get("fields", {}).get("updated", "")`. -/
def updKey (issue : Issue) : String :=
  issue.fields.updated.getD ""

/-- The ordering used by `sorted(..., key=..., reverse=True)` (source lines
125-129): Python's stable sort with `reverse=True` orders by descending key. -/
def issueLe (a b : Issue) : Bool :=
  decide (updKey b ≤ updKey a)

/-- `get_jira_issues` (source lines 98-129) against an honest tracker holding
`all`: accumulate every page, then sort by the `updated` field, descending;
`mergeSort` is stable, like Python's `sorted`. -/
def get_jira_issues (all : List Issue) : List Issue :=
  (fetchLoop all 0).mergeSort issueLe

/-- One line of the task digest of `analyze_with_deepseek` (source lines
139-142), for the 0-based index `i`. -/
def taskLine (i : Nat) (issue : Issue) : String :=
  toString (i + 1) ++ ". " ++ issue.key.getD "N/A"
    ++ " (" ++ issue.fields.issuetype.getD "N/A"
    ++ "): " ++ issue.fields.summary.getD "N/A"
    ++ " (Status: " ++ issue.fields.status.getD "N/A"
    ++ ", Priority: " ++ issue.fields.priority.getD "N/A" ++ ")"

/-- The `tasks_text` digest (source lines 138-143): the first 50 issues only,
one formatted line each, joined by newlines. -/
def tasksText (issues : List Issue) : String :=
  String.intercalate "\n" ((issues.take 50).enum.map (fun p => taskLine p.1 p.2))

/-- The user-message content of the DeepSeek prompt (source lines 149-157). -/
def promptContent (epic_summary tasks_text : String) : String :=
  "Проанализируй задачи из эпика \"" ++ epic_summary ++ "\":\n            "
    ++ tasks_text
    ++ "\n            \n            Предоставь детальный анализ:\n            1. Общий прогресс (%)\n            2. Критические проблемы/блокеры\n            3. Не назначенные задачи\n            4. Рекомендации по приоритизации\n            5. Оценка рисков"

/-- The request `analyze_with_deepseek` submits (source lines 145-167). -/
structure DsRequest where
  api_url : String
  model : String
  content : String
  timeout : Nat
deriving DecidableEq

/-- The DeepSeek request built from the configuration and the digest. -/
def deepseekRequest (cfg : Config) (issues : List Issue) (epic_summary : String) : DsRequest :=
  ⟨cfg.deepseek.api_url, cfg.deepseek.model,
    promptContent epic_summary (tasksText issues), 60⟩

/-- Python-level exceptions relevant to the script. -/
inductive PyErr where
  | nameError
  | connectionError
  | indexError
  | keyError
deriving DecidableEq

/-- Result of one `requests` call: `ok` is a 2xx response with its parsed
JSON payload; `failure` is any `requests.exceptions.RequestException`
(transport error, timeout, or the non-2xx `HTTPError` raised by
`raise_for_status`). -/
inductive HttpResult (α : Type) where
  | ok (val : α)
  | failure
deriving DecidableEq

/-- The `message` object of a DeepSeek choice. -/
structure DsMessage where
  content : Option String
deriving DecidableEq

/-- One element of the `choices` array of a DeepSeek response. -/
structure DsChoice where
  message : Option DsMessage
deriving DecidableEq

/-- Parsed JSON body of a DeepSeek response, as far as the script reads it. -/
structure DsResponse where
  choices : Option (List DsChoice)
deriving DecidableEq

/-- The expression `response.json().get("choices", [{}])[0].get("message",
{}).get("content", "Анализ недоступен")` (source line 169): indexing `[0]`
into a present-but-empty `choices` list raises `IndexError`. -/
def extractContent (r : DsResponse) : Except PyErr String :=
  match r.choices.getD [⟨none⟩] with
  | [] => .error .indexError
  | c :: _ => .ok ((c.message.getD ⟨none⟩).content.getD "Анализ недоступен")

/-- The exact value of the `title` query parameter `find_confluence_page`
sends (source line 176). -/
def find_title (epic_key : String) : String :=
  "Статус эпика " ++ epic_key

/-- The `page_title` built by `update_confluence_page` (source line 191). -/
def page_title (epic_info : Epic) : String :=
  "Статус эпика " ++ epic_info.key ++ " - " ++ epic_info.summary

/-- A Confluence page as the script reads it from the store: its `id` and
`version.number`. -/
structure ConfPage where
  id : String
  versionNumber : Nat
deriving DecidableEq

/-- HTTP method of the Confluence write (source lines 209 and 213). -/
inductive HttpMethod where
  | put
  | post
deriving DecidableEq

/-- The write request `update_confluence_page` issues (source lines 195-223):
method, URL, and the JSON `data` payload. -/
structure ConfWriteRequest where
  method : HttpMethod
  url : String
  title : String
  bodyValue : String
  representation : String
  version : Option Nat
  space : Option String
  timeout : Nat
deriving DecidableEq

/-- Construction of the `update_confluence_page` request (source lines
189-223): with an existing page, a PUT against that page's id with
`version.number + 1`; otherwise a POST with the space key assigned; both
carry the same `body.storage` payload. -/
def upsertRequest (cfg : Config) (existing_page : Option ConfPage)
    (content : String) (epic_info : Epic) : ConfWriteRequest :=
  match existing_page with
  | some p =>
      ⟨.put, cfg.confluence.url ++ "/rest/api/content/" ++ p.id,
        page_title epic_info, content, "storage", some (p.versionNumber + 1), none, 30⟩
  | none =>
      ⟨.post, cfg.confluence.url ++ "/rest/api/content",
        page_title epic_info, content, "storage", none, some cfg.confluence.space_key, 30⟩

/-- The `fields` of the epic response read by `get_epic_info`. -/
structure EpicFields where
  summary : Option String
  description : Option String
deriving DecidableEq

/-- The part of the upsert response JSON that `main` reads afterwards:
`result['_links']['webui']`; `none` models a missing key. -/
structure UpsertResult where
  webui : Option String
deriving DecidableEq

/-- The responses the remote services return during one run, plus the wall
clock; each embedded stage consumes the response meant for it. -/
structure World where
  epicResp : HttpResult EpicFields
  trackerResp : HttpResult (List Issue)
  dsResp : HttpResult DsResponse
  findResp : HttpResult (List ConfPage)
  upsertResp : HttpResult UpsertResult
  now : String
deriving DecidableEq

/-- The module-level global `CONFIG`.  The script contains no assignment to
`CONFIG` anywhere (`load_config` is defined on lines 63-76 but never called),
so the name is unbound, modelled as `none`; reading it raises `NameError`. -/
def CONFIG : Option Config := none

/-- `get_epic_info` (source lines 78-96): reads `CONFIG` while building the
URL, performs the Jira request, converts any `RequestException` to
`ConnectionError`, and defaults the optional fields to the empty string. -/
def get_epic_info_run (cfgOpt : Option Config) (w : World) (epic_key : String) :
    Except PyErr Epic :=
  match cfgOpt with
  | none => .error .nameError
  | some _ =>
      match w.epicResp with
      | .failure => .error .connectionError
      | .ok flds => .ok ⟨epic_key, flds.summary.getD "", some (flds.description.getD "")⟩

/-- `get_jira_issues` as a pipeline stage (source lines 98-129): reads
`CONFIG`, pages through the tracker (the paginated exchange with an honest
tracker is `get_jira_issues`; the tracker's full list and the transport
outcome are carried by one `HttpResult` here), and sorts client-side. -/
def get_jira_issues_run (cfgOpt : Option Config) (w : World) (_epic_key : String) :
    Except PyErr (List Issue) :=
  match cfgOpt with
  | none => .error .nameError
  | some _ =>
      match w.trackerResp with
      | .failure => .error .connectionError
      | .ok all => .ok (get_jira_issues all)

/-- `analyze_with_deepseek` as a pipeline stage (source lines 131-172): reads
`CONFIG` on line 134, before the `try`; on any `RequestException` it returns
the fixed placeholder instead of raising (lines 170-172); a 2xx response is
read by `extractContent`, whose `IndexError` is not caught. -/
def analyze_with_deepseek_run (cfgOpt : Option Config) (w : World)
    (_issues : List Issue) (_epic_summary : String) : Except PyErr String :=
  match cfgOpt with
  | none => .error .nameError
  | some _ =>
      match w.dsResp with
      | .failure => .ok "Анализ временно недоступен"
      | .ok r => extractContent r

/-- `find_confluence_page` (source lines 174-187): queries the fixed space
by the title `find_title epic_key` and returns the first result, or `none`
when the result list is empty. -/
def find_confluence_page_run (cfgOpt : Option Config) (w : World) (_epic_key : String) :
    Except PyErr (Option ConfPage) :=
  match cfgOpt with
  | none => .error .nameError
  | some _ =>
      match w.findResp with
      | .failure => .error .connectionError
      | .ok results => .ok results.head?

/-- `update_confluence_page` as a pipeline stage (source lines 189-227):
builds the upsert request and performs it, converting a `RequestException`
into `ConnectionError`; returns the issued request with the response. -/
def update_confluence_page_run (cfgOpt : Option Config) (w : World)
    (existing_page : Option ConfPage) (content : String) (epic_info : Epic) :
    Except PyErr (ConfWriteRequest × UpsertResult) :=
  match cfgOpt with
  | none => .error .nameError
  | some cfg =>
      match w.upsertResp with
      | .failure => .error .connectionError
      | .ok res => .ok (upsertRequest cfg existing_page content epic_info, res)

/-- Outcome of one `main` invocation: the process exit status and the list
of page writes the document store acknowledged. -/
structure RunOutcome where
  exitCode : Nat
  published : List ConfWriteRequest
deriving DecidableEq

/-- `main` (source lines 362-395), with the dependency bootstrap of lines
366-379 omitted as the spec's out-of-scope process boundary: the stage
sequence of lines 381-391 inside the `try`, whose handler logs the exception
and exits with status 1.  The first statement, `CONFIG["epic_key"]`, raises
`NameError` when `CONFIG` is unbound.  The success log on line 391 reads
`result['_links']['webui']`; a missing key raises `KeyError` after the page
was already written. -/
def mainRun (md : String → String) (cfgOpt : Option Config) (w : World) : RunOutcome :=
  match cfgOpt with
  | none => ⟨1, []⟩
  | some cfg =>
      match get_epic_info_run cfgOpt w cfg.epic_key with
      | .error _ => ⟨1, []⟩
      | .ok epic_info =>
          match get_jira_issues_run cfgOpt w cfg.epic_key with
          | .error _ => ⟨1, []⟩
          | .ok issues =>
              match analyze_with_deepseek_run cfgOpt w issues epic_info.summary with
              | .error _ => ⟨1, []⟩
              | .ok analysis =>
                  let content := generate_content md cfg issues analysis epic_info w.now
                  match find_confluence_page_run cfgOpt w cfg.epic_key with
                  | .error _ => ⟨1, []⟩
                  | .ok page =>
                      match update_confluence_page_run cfgOpt w page content epic_info with
                      | .error _ => ⟨1, []⟩
                      | .ok (req, res) =>
                          match res.webui with
                          | none => ⟨1, [req]⟩
                          | some _ => ⟨0, [req]⟩

/-! Concrete data used by the witness theorems. -/

/-- A concrete configuration value (what a successful `load_config` would
produce) for witness instantiation. -/
def cfgW : Config :=
  ⟨⟨"https://jira.example.com", "u", "t"⟩,
   ⟨"https://wiki.example.com", "u", "t", "SPACE"⟩,
   ⟨"https://api.deepseek.com/chat", "key", "deepseek-chat"⟩, "PROJ-1"⟩

/-- A concrete epic dictionary for witness instantiation. -/
def epicW : Epic := ⟨"PROJ-1", "Launch", some ""⟩

/-- A concrete issue (updated 2024-01-02) for witness instantiation. -/
def issueW1 : Issue :=
  ⟨some "PROJ-2", ⟨some "Fix login", some "Готово", some "Task", some "Высокий",
    none, some "2024-01-02T10:00:00.000+0000", none⟩⟩

/-- A concrete issue (updated 2024-01-05) for witness instantiation. -/
def issueW2 : Issue :=
  ⟨some "PROJ-3", ⟨some "Write docs", some "Open", some "Task", some "Low",
    none, some "2024-01-05T10:00:00.000+0000", none⟩⟩

/-- A world where every service answers and only the summarizer fails. -/
def wFail : World :=
  ⟨.ok ⟨some "Launch", some ""⟩, .ok [issueW1, issueW2], .failure, .ok [],
   .ok ⟨some "/pages/1"⟩, "2024-02-01 12:00:00"⟩

/-- A world where the summarizer returns 2xx with `choices: []`. -/
def wEmpty : World :=
  ⟨.ok ⟨some "Launch", some ""⟩, .ok [issueW1, issueW2], .ok ⟨some []⟩, .ok [],
   .ok ⟨some "/pages/1"⟩, "2024-02-01 12:00:00"⟩

/-! Helper lemmas. -/

theorem fetchLoop_drop (all : List Issue) (s : Nat) : fetchLoop all s = all.drop s := by
  rw [fetchLoop]
  by_cases h : s + 100 ≥ all.length
  · simp only [h, if_pos]
    exact List.take_of_length_le (by simp; omega)
  · simp only [h, if_neg, not_false_iff]
    rw [fetchLoop_drop all (s + 100)]
    rw [← List.drop_drop]
    exact List.take_append_drop 100 (all.drop s)
termination_by all.length - s
decreasing_by omega

theorem issueLe_trans (a b c : Issue) :
    issueLe a b = true → issueLe b c = true → issueLe a c = true := by
  intro hab hbc
  simp only [issueLe, decide_eq_true_eq] at *
  exact le_trans hbc hab

theorem issueLe_total (a b : Issue) : (issueLe a b || issueLe b a) = true := by
  simp only [issueLe, Bool.or_eq_true, decide_eq_true_eq]
  exact le_total (updKey b) (updKey a)

theorem get_jira_issues_perm (all : List Issue) : (get_jira_issues all).Perm all := by
  unfold get_jira_issues
  rw [fetchLoop_drop, List.drop_zero]
  exact List.mergeSort_perm all issueLe

theorem get_jira_issues_sorted (all : List Issue) :
    (get_jira_issues all).Pairwise (fun a b => updKey b ≤ updKey a) := by
  have h := List.sorted_mergeSort issueLe_trans issueLe_total (fetchLoop all 0)
  exact h.imp (fun hab => by simpa [issueLe, decide_eq_true_eq] using hab)

theorem pageRequests_head (k : String) (total s : Nat) :
    (pageRequests k total s).head? = some ⟨jqlOf k, searchFieldSet, s, 100, 30⟩ := by
  rw [pageRequests]
  rfl

theorem pageRequests_chain (k : String) (total s : Nat) :
    List.Chain' (fun a b => b.startAt = a.startAt + 100) (pageRequests k total s) := by
  rw [pageRequests]
  by_cases h : s + 100 ≥ total
  · simp [h]
  · rw [if_neg h, List.chain'_cons']
    refine ⟨?_, pageRequests_chain k total (s + 100)⟩
    intro b hb
    rw [pageRequests_head] at hb
    simp only [Option.mem_def, Option.some.injEq] at hb
    subst hb
    rfl
termination_by total - s
decreasing_by omega

theorem pageRequests_uniform (k : String) (total s : Nat) :
    ∀ r ∈ pageRequests k total s,
      r.jql = jqlOf k ∧ r.fieldSet = searchFieldSet ∧ r.maxResults = 100 ∧ r.timeout = 30 := by
  intro r hr
  rw [pageRequests] at hr
  by_cases h : s + 100 ≥ total
  · rw [if_pos h] at hr
    simp only [List.mem_singleton] at hr
    subst hr
    exact ⟨rfl, rfl, rfl, rfl⟩
  · rw [if_neg h] at hr
    rcases List.mem_cons.mp hr with h1 | h2
    · subst h1
      exact ⟨rfl, rfl, rfl, rfl⟩
    · exact pageRequests_uniform k total (s + 100) r h2
termination_by total - s
decreasing_by omega

theorem foldl_append_shift (l : List String) (a : String) :
    l.foldl (fun r s => r ++ s) a = a ++ l.foldl (fun r s => r ++ s) "" := by
  induction l generalizing a with
  | nil => simp only [List.foldl_nil, String.append_empty]
  | cons h t ih =>
      simp only [List.foldl_cons]
      rw [ih (a ++ h), ih ("" ++ h), String.empty_append, String.append_assoc]

theorem join_cons (s : String) (l : List String) :
    String.join (s :: l) = s ++ String.join l := by
  simp only [String.join, List.foldl_cons]
  rw [String.empty_append, foldl_append_shift]

theorem foldl_rows {α : Type} (f : α → String) (l : List α) (init : String) :
    l.foldl (fun acc x => acc ++ f x) init = init ++ String.join (l.map f) := by
  induction l generalizing init with
  | nil => simp only [List.foldl_nil, List.map_nil, String.join, String.append_empty]
  | cons h t ih =>
      simp only [List.foldl_cons, List.map_cons]
      rw [ih (init ++ f h), join_cons, String.append_assoc]

theorem nlToBrData_eq_self {l : List Char} (h : '\n' ∉ l) : nlToBrData l = l := by
  induction l with
  | nil => rfl
  | cons c t ih =>
      rw [nlToBrData, if_neg (by intro hc; exact h (hc ▸ List.mem_cons_self c t)),
        ih (fun ht => h (List.mem_cons_of_mem c ht))]

theorem nlToBr_eq_self {s : String} (h : '\n' ∉ s.data) : nlToBr s = s := by
  unfold nlToBr
  rw [nlToBrData_eq_self h]

theorem upsertRequest_bodyValue (cfg : Config) (ex : Option ConfPage)
    (content : String) (epic_info : Epic) :
    (upsertRequest cfg ex content epic_info).bodyValue = content := by
  cases ex <;> rfl

theorem generate_content_contains_analysis (md : String → String) (cfg : Config)
    (issues : List Issue) (epic_info : Epic) (t a : String) (h : nlToBr a = a) :
    containsSub (generate_content md cfg issues a epic_info t) a :=
  ⟨stylesBlock ++ headerBlock md epic_info ++ tasksTable md cfg issues ++ anaPre,
    anaPost ++ footerBlock t,
    by simp [generate_content, analysisBlockOf, h, String.append_assoc]⟩

/-! Claim theorems. -/

/-- Claim C6: status classification is total and priority classification is
total.  `status_class` maps every string to exactly one of
status-done / status-inprogress / status-open by case-insensitive substring
match with first match winning, evaluated as done-token ("готов"), then
in-progress-token ("прогрес"), then open as the default (including empty and
unrecognized statuses); `priority_class` maps every string to exactly one of
priority-high / priority-medium / priority-low, with low as the default for
everything else. -/
theorem classification_total (s p : String) :
    (status_class s = "status-done" ∨ status_class s = "status-inprogress"
        ∨ status_class s = "status-open")
    ∧ (status_class s = "status-done" ↔ hasTok s "готов" = true)
    ∧ (status_class s = "status-inprogress"
        ↔ (hasTok s "готов" = false ∧ hasTok s "прогрес" = true))
    ∧ (status_class s = "status-open"
        ↔ (hasTok s "готов" = false ∧ hasTok s "прогрес" = false))
    ∧ (priority_class p = "priority-high" ∨ priority_class p = "priority-medium"
        ∨ priority_class p = "priority-low")
    ∧ (priority_class p = "priority-high" ↔ hasTok p "высок" = true)
    ∧ (priority_class p = "priority-medium"
        ↔ (hasTok p "высок" = false ∧ hasTok p "средн" = true))
    ∧ (priority_class p = "priority-low"
        ↔ (hasTok p "высок" = false ∧ hasTok p "средн" = false)) := by
  cases hg : hasTok s "готов" <;> cases hp : hasTok s "прогрес" <;>
    cases hv : hasTok p "высок" <;> cases hm : hasTok p "средн" <;>
      simp [status_class, priority_class, hg, hp, hv, hm]

/-- Claim C5: for an existing page, `update_confluence_page` issues a PUT
against that page's identifier with version number `version.number + 1`; with
no existing page it issues a POST with the target space assigned; both paths
send the same body value, representation, and title. -/
theorem upsert_request_spec (cfg : Config) (p : ConfPage) (content : String)
    (epic_info : Epic) :
    (upsertRequest cfg (some p) content epic_info).method = HttpMethod.put
    ∧ (upsertRequest cfg (some p) content epic_info).url
        = cfg.confluence.url ++ "/rest/api/content/" ++ p.id
    ∧ (upsertRequest cfg (some p) content epic_info).version = some (p.versionNumber + 1)
    ∧ (upsertRequest cfg (some p) content epic_info).space = none
    ∧ (upsertRequest cfg none content epic_info).method = HttpMethod.post
    ∧ (upsertRequest cfg none content epic_info).url
        = cfg.confluence.url ++ "/rest/api/content"
    ∧ (upsertRequest cfg none content epic_info).space = some cfg.confluence.space_key
    ∧ (upsertRequest cfg none content epic_info).version = none
    ∧ (upsertRequest cfg (some p) content epic_info).bodyValue
        = (upsertRequest cfg none content epic_info).bodyValue
    ∧ (upsertRequest cfg (some p) content epic_info).representation
        = (upsertRequest cfg none content epic_info).representation
    ∧ (upsertRequest cfg (some p) content epic_info).title
        = (upsertRequest cfg none content epic_info).title :=
  ⟨rfl, rfl, rfl, rfl, rfl, rfl, rfl, rfl, rfl, rfl, rfl⟩

/-- Claim C1 is refuted by the code: the title value `find_confluence_page`
queries the store for ("Статус эпика {epic_key}", without the summary) never
equals the title under which `update_confluence_page` creates or updates the
report page ("Статус эпика {key} - {summary}"), for any epic — so the
title-based lookup cannot find the page a previous run created.  Shown
concretely for key "PROJ-1" with summary "Launch". -/
theorem find_title_never_matches_page_title (epic_info : Epic) :
    find_title epic_info.key ≠ page_title epic_info
    ∧ find_title "PROJ-1" = "Статус эпика PROJ-1"
    ∧ page_title ⟨"PROJ-1", "Launch", none⟩ = "Статус эпика PROJ-1 - Launch" := by
  refine ⟨?_, rfl, rfl⟩
  intro h
  have hl := congrArg String.length h
  have h3 : (" - " : String).length = 3 := rfl
  simp only [find_title, page_title, String.length_append] at hl
  omega

/-- Claim C3: against a tracker reporting `all.length` total issues, the
paginated fetch of `get_jira_issues` uses a fixed limit of 100, every page
request carries the same filter and field set, the offset starts at 0 and
advances by exactly the page size, and the returned list is exactly the
union of all pages with no lost or duplicated issues (a permutation of the
tracker's list), sorted client-side after full accumulation by last-updated
descending — strictly descending whenever the timestamps are pairwise
distinct. -/
theorem get_jira_issues_pagination_spec (k : String) (all : List Issue) :
    (get_jira_issues all).Perm all
    ∧ (get_jira_issues all).Pairwise (fun a b => updKey b ≤ updKey a)
    ∧ ((all.map updKey).Nodup
        → (get_jira_issues all).Pairwise (fun a b => updKey b < updKey a))
    ∧ (∀ r ∈ pageRequests k all.length 0,
        r.jql = jqlOf k ∧ r.fieldSet = searchFieldSet ∧ r.maxResults = 100)
    ∧ (pageRequests k all.length 0).head? = some ⟨jqlOf k, searchFieldSet, 0, 100, 30⟩
    ∧ List.Chain' (fun a b => b.startAt = a.startAt + 100)
        (pageRequests k all.length 0) := by
  refine ⟨get_jira_issues_perm all, get_jira_issues_sorted all, ?_, ?_,
    pageRequests_head k all.length 0, pageRequests_chain k all.length 0⟩
  · intro hnd
    have hperm := get_jira_issues_perm all
    have hnd2 : ((get_jira_issues all).map updKey).Nodup :=
      ((hperm.map updKey).nodup_iff).mpr hnd
    have hne : (get_jira_issues all).Pairwise (fun a b => updKey a ≠ updKey b) :=
      List.pairwise_map.mp hnd2
    have hle := get_jira_issues_sorted all
    exact (hle.and hne).imp (fun hab => lt_of_le_of_ne hab.1 (Ne.symm hab.2))
  · intro r hr
    have h := pageRequests_uniform k all.length 0 r hr
    exact ⟨h.1, h.2.1, h.2.2.1⟩

/-- Witness for C3 at a concrete two-issue tracker with distinct `updated`
timestamps: the hypotheses of the strict-descending conjunct hold and the
fetched list is strictly descending. -/
theorem get_jira_issues_pagination_spec_witness :
    (([issueW1, issueW2].map updKey).Nodup)
    ∧ (get_jira_issues [issueW1, issueW2]).Pairwise (fun a b => updKey b < updKey a) :=
  ⟨by decide,
    (get_jira_issues_pagination_spec "PROJ-1" [issueW1, issueW2]).2.2.1 (by decide)⟩

/-- Claim C7: the renderer is a pure function of its inputs — two runs on the
same (epic, issues, analysis) input produce documents that are byte-identical
except for the stamped generation time (one common prefix and suffix
surround the timestamp), and the table body is the concatenation of the
rendered rows in exactly the input issue order, with no re-sorting. -/
theorem generate_content_deterministic (md : String → String) (cfg : Config)
    (issues : List Issue) (analysis : String) (epic_info : Epic) (t1 t2 : String) :
    (∃ pre post,
        generate_content md cfg issues analysis epic_info t1 = pre ++ t1 ++ post
        ∧ generate_content md cfg issues analysis epic_info t2 = pre ++ t2 ++ post)
    ∧ tasksTable md cfg issues
        = tableHead ++ String.join (issues.map (renderRow md cfg)) ++ "</table>" := by
  constructor
  · refine ⟨stylesBlock ++ headerBlock md epic_info ++ tasksTable md cfg issues
      ++ analysisBlockOf analysis ++ footPre, footPost, ?_, ?_⟩ <;>
      simp [generate_content, footerBlock, String.append_assoc]
  · show (issues.foldl (fun acc issue => acc ++ renderRow md cfg issue) tableHead)
      ++ "</table>" = _
    rw [foldl_rows (renderRow md cfg) issues tableHead]

/-- Claim C10: the analysis text is embedded verbatim — only newline
characters are replaced by `<br>` markup and no escaping is applied — so any
newline-free analysis string, markup included, appears unchanged in the
rendered body; issue fields, by contrast, pass through `escape` before
embedding (shown for the issue title inside its table row). -/
theorem analysis_embedded_unescaped (md : String → String) (cfg : Config)
    (issues : List Issue) (epic_info : Epic) (t analysis : String)
    (h : '\n' ∉ analysis.data) :
    nlToBr analysis = analysis
    ∧ (∃ pre post,
        generate_content md cfg issues analysis epic_info t = pre ++ analysis ++ post)
    ∧ (∀ issue : Issue, ∃ p q,
        renderRow md cfg issue = p ++ escape (issue.fields.summary.getD "N/A") ++ q) := by
  refine ⟨nlToBr_eq_self h, ?_, ?_⟩
  · obtain ⟨pre, post, hpq⟩ := generate_content_contains_analysis md cfg issues
      epic_info t analysis (nlToBr_eq_self h)
    exact ⟨pre, post, hpq⟩
  · intro issue
    refine ⟨"\n        <tr>\n            <td><a href=\"" ++ cfg.jira.url ++ "/browse/"
        ++ issue.key.getD "N/A" ++ "\" target=\"_blank\">" ++ issue.key.getD "N/A"
        ++ "</a></td>\n            <td>\n                <div>\n                    <span class=\"task-type\">"
        ++ escape (issue.fields.issuetype.getD "N/A")
        ++ "</span>\n                    <span class=\""
        ++ priority_class (escape (issue.fields.priority.getD "N/A"))
        ++ "\">" ++ escape (issue.fields.priority.getD "N/A")
        ++ "</span>\n                </div>\n                <strong>",
      "</strong>\n                <div class=\"task-description\">"
        ++ (if escape (issue.fields.description.getD "") = "" then "Нет описания"
            else md (escape (issue.fields.description.getD "")))
        ++ "</div>\n            </td>\n            <td class=\""
        ++ status_class (escape (issue.fields.status.getD "N/A"))
        ++ "\">" ++ escape (issue.fields.status.getD "N/A")
        ++ "</td>\n            <td>"
        ++ (match issue.fields.assignee with
            | some name => escape name
            | none => "Не назначен")
        ++ "</td>\n            <td>" ++ escape ((issue.fields.updated.getD "").take 10)
        ++ "</td>\n        </tr>\n        ", ?_⟩
    simp [renderRow, String.append_assoc]

/-- Witness for C10: the newline-free markup string `<em>x</em>` appears
verbatim (unescaped) in a concretely rendered body. -/
theorem analysis_embedded_unescaped_witness :
    '\n' ∉ ("<em>x</em>" : String).data
    ∧ ∃ pre post, generate_content (fun x => x) cfgW [] "<em>x</em>" epicW ""
        = pre ++ "<em>x</em>" ++ post :=
  ⟨by decide,
    (analysis_embedded_unescaped (fun x => x) cfgW [] epicW "" "<em>x</em>"
      (by decide)).2.1⟩

/-- Claim C8, settled against the evident intent of source lines 138-159
(whose `join(` parenthesis is left unclosed, a parse error recorded with the
claim): the digest contains at most the first 50 issues of the input
sequence in order — issues beyond the first 50 are never part of it — one
fixed-format line per issue, the prompt content embeds the digest, and the
request carries a 60-unit timeout. -/
theorem digest_first_fifty (cfg : Config) (issues : List Issue) (epic_summary : String) :
    tasksText issues = tasksText (issues.take 50)
    ∧ ((issues.take 50).enum.map (fun pr => taskLine pr.1 pr.2)).length
        = min 50 issues.length
    ∧ (deepseekRequest cfg issues epic_summary).timeout = 60
    ∧ (∃ p q, (deepseekRequest cfg issues epic_summary).content
        = p ++ tasksText issues ++ q) := by
  refine ⟨?_, ?_, rfl, ?_⟩
  · simp [tasksText, List.take_take]
  · simp [List.length_take]
  · exact ⟨"Проанализируй задачи из эпика \"" ++ epic_summary ++ "\":\n            ",
      "\n            \n            Предоставь детальный анализ:\n            1. Общий прогресс (%)\n            2. Критические проблемы/блокеры\n            3. Не назначенные задачи\n            4. Рекомендации по приоритизации\n            5. Оценка рисков",
      by simp [deepseekRequest, promptContent, String.append_assoc]⟩

/-- Claim C2: the global `CONFIG` that every pipeline stage reads is never
assigned anywhere in the program (`load_config` exists but is never called),
so the global is unbound, every stage raises `NameError` on its `CONFIG`
read, and every invocation of `main` reaches the exception handler and exits
with a non-zero status before publishing anything. -/
theorem config_unbound_main_always_fails (md : String → String) (w : World)
    (k epic_summary content : String) (issues : List Issue)
    (pg : Option ConfPage) (epic_info : Epic) :
    CONFIG = none
    ∧ get_epic_info_run CONFIG w k = .error .nameError
    ∧ get_jira_issues_run CONFIG w k = .error .nameError
    ∧ analyze_with_deepseek_run CONFIG w issues epic_summary = .error .nameError
    ∧ find_confluence_page_run CONFIG w k = .error .nameError
    ∧ update_confluence_page_run CONFIG w pg content epic_info = .error .nameError
    ∧ mainRun md CONFIG w = ⟨1, []⟩ :=
  ⟨rfl, rfl, rfl, rfl, rfl, rfl, rfl⟩

/-- Claim C4: when every remote call succeeds except the summarizer, which
fails at transport/response level, `analyze_with_deepseek` does not propagate
the error but returns the fixed placeholder string, the pipeline completes
with exit status 0, and the single published page body contains the
placeholder text; the summarizer is the only stage whose failure is
absorbed — the same failure in any other stage surfaces as an error. -/
theorem summarizer_failure_absorbed (md : String → String) (cfg : Config) (w : World)
    (flds : EpicFields) (all : List Issue) (pages : List ConfPage)
    (ures : UpsertResult) (link : String) (issues : List Issue)
    (epic_summary k content : String) (pg : Option ConfPage) (epic_info : Epic)
    (h1 : w.epicResp = .ok flds) (h2 : w.trackerResp = .ok all)
    (h3 : w.dsResp = .failure) (h4 : w.findResp = .ok pages)
    (h5 : w.upsertResp = .ok ures) (h6 : ures.webui = some link) :
    analyze_with_deepseek_run (some cfg) w issues epic_summary
        = .ok "Анализ временно недоступен"
    ∧ (mainRun md (some cfg) w).exitCode = 0
    ∧ (∃ req, (mainRun md (some cfg) w).published = [req]
        ∧ containsSub req.bodyValue "Анализ временно недоступен")
    ∧ (∀ w' : World, w'.epicResp = .failure
        → get_epic_info_run (some cfg) w' k = .error .connectionError)
    ∧ (∀ w' : World, w'.trackerResp = .failure
        → get_jira_issues_run (some cfg) w' k = .error .connectionError)
    ∧ (∀ w' : World, w'.findResp = .failure
        → find_confluence_page_run (some cfg) w' k = .error .connectionError)
    ∧ (∀ w' : World, w'.upsertResp = .failure
        → update_confluence_page_run (some cfg) w' pg content epic_info
            = .error .connectionError) := by
  have hmain : mainRun md (some cfg) w
      = ⟨0, [upsertRequest cfg pages.head?
          (generate_content md cfg (get_jira_issues all) "Анализ временно недоступен"
            ⟨cfg.epic_key, flds.summary.getD "", some (flds.description.getD "")⟩ w.now)
          ⟨cfg.epic_key, flds.summary.getD "", some (flds.description.getD "")⟩]⟩ := by
    simp [mainRun, get_epic_info_run, get_jira_issues_run, analyze_with_deepseek_run,
      find_confluence_page_run, update_confluence_page_run, h1, h2, h3, h4, h5, h6]
  refine ⟨by simp [analyze_with_deepseek_run, h3], by rw [hmain], ?_, ?_, ?_, ?_, ?_⟩
  · refine ⟨upsertRequest cfg pages.head?
        (generate_content md cfg (get_jira_issues all) "Анализ временно недоступен"
          ⟨cfg.epic_key, flds.summary.getD "", some (flds.description.getD "")⟩ w.now)
        ⟨cfg.epic_key, flds.summary.getD "", some (flds.description.getD "")⟩,
      by rw [hmain], ?_⟩
    rw [upsertRequest_bodyValue]
    exact generate_content_contains_analysis md cfg (get_jira_issues all) _ w.now
      "Анализ временно недоступен" (nlToBr_eq_self (by decide))
  · intro w' hw
    simp [get_epic_info_run, hw]
  · intro w' hw
    simp [get_jira_issues_run, hw]
  · intro w' hw
    simp [find_confluence_page_run, hw]
  · intro w' hw
    simp [update_confluence_page_run, hw]

/-- Witness for C4 at a concrete world whose summarizer fails and whose other
services succeed: the run exits 0 and the published body contains the
placeholder. -/
theorem summarizer_failure_absorbed_witness :
    wFail.dsResp = .failure
    ∧ (mainRun (fun x => x) (some cfgW) wFail).exitCode = 0
    ∧ (∃ req, (mainRun (fun x => x) (some cfgW) wFail).published = [req]
        ∧ containsSub req.bodyValue "Анализ временно недоступен") :=
  ⟨rfl,
    (summarizer_failure_absorbed (fun x => x) cfgW wFail ⟨some "Launch", some ""⟩
      [issueW1, issueW2] [] ⟨some "/pages/1"⟩ "/pages/1" [] "" "" "" none epicW
      rfl rfl rfl rfl rfl rfl).2.1,
    (summarizer_failure_absorbed (fun x => x) cfgW wFail ⟨some "Launch", some ""⟩
      [issueW1, issueW2] [] ⟨some "/pages/1"⟩ "/pages/1" [] "" "" "" none epicW
      rfl rfl rfl rfl rfl rfl).2.2.1⟩

/-- Claim C9: a 2xx summarizer response whose JSON body has a `choices` key
holding an empty list makes `analyze_with_deepseek` raise an uncaught
`IndexError` (indexing `[0]` into the empty list; only requests-level
exceptions are caught), which propagates and aborts the run with nothing
published. -/
theorem empty_choices_index_error (md : String → String) (cfg : Config) (w : World)
    (flds : EpicFields) (all : List Issue) (issues : List Issue) (epic_summary : String)
    (h1 : w.epicResp = .ok flds) (h2 : w.trackerResp = .ok all)
    (h3 : w.dsResp = .ok ⟨some []⟩) :
    analyze_with_deepseek_run (some cfg) w issues epic_summary = .error .indexError
    ∧ mainRun md (some cfg) w = ⟨1, []⟩ := by
  constructor
  · simp [analyze_with_deepseek_run, h3, extractContent]
  · simp [mainRun, get_epic_info_run, get_jira_issues_run, analyze_with_deepseek_run,
      extractContent, h1, h2, h3]

/-- Witness for C9 at a concrete world whose summarizer returns
`choices: []`: the stage raises `IndexError` and the run aborts. -/
theorem empty_choices_index_error_witness :
    wEmpty.dsResp = .ok ⟨some []⟩
    ∧ analyze_with_deepseek_run (some cfgW) wEmpty [] "" = .error .indexError
    ∧ mainRun (fun x => x) (some cfgW) wEmpty = ⟨1, []⟩ :=
  ⟨rfl,
    (empty_choices_index_error (fun x => x) cfgW wEmpty ⟨some "Launch", some ""⟩
      [issueW1, issueW2] [] "" rfl rfl rfl).1,
    (empty_choices_index_error (fun x => x) cfgW wEmpty ⟨some "Launch", some ""⟩
      [issueW1, issueW2] [] "" rfl rfl rfl).2⟩

end EpicStatus
